import Mathlib

/-
Shallow embedding of the image-analysis pipeline of src/app.py
(Brain-Tumor-Detection).

The script wires a file upload to a YOLOv8 call:
  load_model (cached via st.cache_resource, line 66-71)
  Image.open on the uploaded bytes (line 84)
  tempfile.NamedTemporaryFile(delete=False, suffix=".jpg") + image.save
  (lines 92-93), model(temp_file.name) (line 94)
  results[0].plot() (line 99)
  per-box class-name resolution model.names[cls_id] (lines 124-128)
  summary: total_detections, top_class, top_conf (lines 133-139)
  os.remove(temp_file_path) (line 156, success path only).

The external libraries (PIL decoding, the YOLO network, the plot renderer)
are opaque black boxes per the spec; they enter the embedding as function
parameters bundled in the Externals structure.  Confidences are modelled
as rationals.  An uncaught Python exception is modelled as an error value
that aborts the run; state effects that happened before the exception
(temp-file creation, model-cache fill) persist in the returned state.
-/

/-- A decoded in-memory image: dimensions plus channel count
(the pixel contents are irrelevant to every property below,
the opaque model consumes the image as a whole). -/
structure Img where
  width : Nat
  height : Nat
  channels : Nat
deriving DecidableEq, Repr

/-- One raw detection as emitted by the model: a class index and a
confidence, mirroring the only fields the script reads
(box.cls[0] and box.conf[0], lines 126-127). -/
structure Detection where
  cls : Nat
  conf : ℚ
deriving DecidableEq, Repr

/-- The loaded model handle: an identity tag (fresh per weight-load,
so that two distinct loads are distinguishable) and the label table
model.names. -/
structure ModelHandle where
  id : Nat
  names : List String
deriving DecidableEq, Repr

/-- The st.cache_resource cache backing load_model (lines 66-71):
the memoised handle, plus a counter of weight-load operations. -/
structure CacheState where
  cached : Option ModelHandle
  loadCount : Nat
deriving DecidableEq, Repr

/-- load_model (lines 67-69): loads the weights, producing a fresh handle,
and records the load in the cache. -/
def load_model (names : List String) (c : CacheState) : ModelHandle × CacheState :=
  let h : ModelHandle := ⟨c.loadCount, names⟩
  (h, ⟨some h, c.loadCount + 1⟩)

/-- The cached accessor st.cache_resource wraps around load_model (line 66):
a call returns the memoised handle when present, otherwise performs the
one load and memoises it.  st.cache_resource serialises concurrent first
calls, so each call is modelled as one atomic step. -/
def get_instance (names : List String) (c : CacheState) : ModelHandle × CacheState :=
  match c.cached with
  | some h => (h, c)
  | none => load_model names c

/-- n successive get_instance calls, returning every handle handed out
and the final cache state. -/
def runCalls (names : List String) : Nat → CacheState → List ModelHandle × CacheState
  | 0, c => ([], c)
  | n + 1, c =>
    let hc := get_instance names c
    let rest := runCalls names n hc.2
    (hc.1 :: rest.1, rest.2)

/-- Modelled from the spec: whether the PIL JPEG encoder accepts the
decoded image mode at image.save(temp_file.name) (line 93, suffix ".jpg").
The encoder itself lives in the external PIL library, not in src/; per the
spec and PIL behaviour, 1-channel (L) and 3-channel (RGB) images encode,
while a 4-channel RGBA image raises an uncaught OSError, and the script
performs no channel conversion. -/
def canWriteJpeg (img : Img) : Bool :=
  img.channels == 1 || img.channels == 3

/-- Modelled from the spec: the confidence-threshold filter (spec step 5).
In the script the filtering happens inside the external ultralytics
library (the model applies its default threshold at line 94); the spec
promotes the threshold to an explicit parameter.  A detection is discarded
exactly when its confidence is strictly below the threshold, i.e. kept
when threshold <= confidence; List.filter keeps the emission order. -/
def filterDetections (t : ℚ) (ds : List Detection) : List Detection :=
  ds.filter fun d => decide (t ≤ d.conf)

/-- The errors an analysis run can end in.  Each models a concrete
uncaught Python exception of the script; validationError is the error
the spec prescribes for bad dimensions/channels and is listed here so
that its absence from every code path is provable. -/
inductive RunError where
  | decodeError
  | saveError
  | renderError
  | labelMappingError
  | validationError
deriving DecidableEq, Repr

/-- The per-box class-name resolution loop (lines 124-128):
model.names[cls_id] for each box in emission order; a class index
missing from the label table raises (KeyError), modelled as
labelMappingError. -/
def resolveAll (names : List String) : List Detection → Except RunError (List (String × ℚ))
  | [] => Except.ok []
  | d :: ds =>
    match names[d.cls]? with
    | none => Except.error RunError.labelMappingError
    | some nm =>
      match resolveAll names ds with
      | Except.error e => Except.error e
      | Except.ok rs => Except.ok ((nm, d.conf) :: rs)

/-- The structured result of one successful analysis: the resolved
detections in emission order, the summary metrics of lines 133-139,
and the rendered annotated image. -/
structure DetectionOutput where
  detections : List (String × ℚ)
  total_count : Nat
  top_class : String
  top_conf : ℚ
  annotated : Option Img
deriving DecidableEq, Repr

/-- The opaque external collaborators of the script, per the spec:
PIL decoding (Image.open; none models a decode failure on invalid or
truncated bytes), the raw model emission (the YOLO network before
threshold filtering), the plot renderer (results[0].plot(); none models
a rendering failure), and the label table baked into the weights file. -/
structure Externals where
  decode : List Nat → Option Img
  rawModel : Img → List Detection
  plot : Img → List Detection → Option Img
  names : List String

/-- The mutable state an analysis run touches: the process-wide model
cache and whether the temp file of this request is on disk. -/
structure AppState where
  cache : CacheState
  tempLive : Bool
deriving DecidableEq, Repr

/-- One end-to-end analysis run of the script, in source order:
load_model (line 71), Image.open (line 84), temp-file creation and
image.save as JPEG (lines 92-93), model call (line 94), plot (line 99),
class-name resolution (lines 124-128), summary (lines 133-139, where the
top_class lookup repeats the lookup the loop already resolved),
os.remove (line 156).  An error return models an uncaught exception at
that point: the run aborts and later steps, including the temp-file
removal, do not happen. -/
def analyze (ext : Externals) (t : ℚ) (bytes : List Nat) (s : AppState) :
    Except RunError DetectionOutput × AppState :=
  let model := (get_instance ext.names s.cache).1
  let cache1 := (get_instance ext.names s.cache).2
  match ext.decode bytes with
  | none => (Except.error RunError.decodeError, ⟨cache1, s.tempLive⟩)
  | some image =>
    if canWriteJpeg image then
      let results := filterDetections t (ext.rawModel image)
      match ext.plot image results with
      | none => (Except.error RunError.renderError, ⟨cache1, true⟩)
      | some rendered =>
        match resolveAll model.names results with
        | Except.error e => (Except.error e, ⟨cache1, true⟩)
        | Except.ok resolved =>
          (Except.ok
            { detections := resolved
              total_count := results.length
              top_class := (resolved.head?.map Prod.fst).getD ("N/A")
              top_conf := (results.head?.map Detection.conf).getD 0
              annotated := some rendered },
           ⟨cache1, false⟩)
    else (Except.error RunError.saveError, ⟨cache1, true⟩)

/-- The first detection of a result, when any: the Option form of the
top_class/top_conf pair (absent is rendered as the sentinels
"N/A" and 0 by lines 134-135). -/
def DetectionOutput.top_detection (o : DetectionOutput) : Option (String × ℚ) :=
  o.detections.head?

/-- Whether an analysis outcome is a successful result. -/
def outcomeOk : Except RunError DetectionOutput → Bool
  | Except.ok _ => true
  | Except.error _ => false

instance {ε α : Type} [DecidableEq ε] [DecidableEq α] : DecidableEq (Except ε α) :=
  fun a b =>
    match a, b with
    | Except.ok x, Except.ok y =>
      if h : x = y then isTrue (by rw [h]) else isFalse (by simp [h])
    | Except.error x, Except.error y =>
      if h : x = y then isTrue (by rw [h]) else isFalse (by simp [h])
    | Except.ok _, Except.error _ => isFalse (by simp)
    | Except.error _, Except.ok _ => isFalse (by simp)

/-- Concrete instances used to evaluate the theorems below on inputs. -/
def demoNames : List String := ["glioma", "meningioma"]

def extW : Externals where
  decode := fun bs =>
    if bs = [255, 216, 3] then some ⟨640, 480, 3⟩
    else if bs = [137, 80, 4] then some ⟨640, 480, 4⟩
    else none
  rawModel := fun _ => [⟨0, (9 : ℚ)⟩, ⟨1, (3 : ℚ)⟩]
  plot := fun img _ => some img
  names := demoNames

def coldState : AppState := ⟨⟨none, 0⟩, false⟩

/-- The three-channel 640x480 image extW decodes [255, 216, 3] to. -/
def imgW : Img := ⟨640, 480, 3⟩

/-- The four-channel (RGBA) image extW decodes [137, 80, 4] to. -/
def imgA : Img := ⟨640, 480, 4⟩

/-- The handle the first load under demoNames produces. -/
def handleW : ModelHandle := ⟨0, demoNames⟩

/-- The state after one completed successful run from coldState. -/
def warmState : AppState := ⟨⟨some handleW, 1⟩, false⟩

/-- The output of analyze extW 1 [255, 216, 3] coldState. -/
def oW : DetectionOutput :=
  ⟨[("glioma", 9), ("meningioma", 3)], 2, "glioma", 9, some imgW⟩

/-- The output of analyze extW 5 [255, 216, 3] coldState. -/
def oW5 : DetectionOutput := ⟨[("glioma", 9)], 1, "glioma", 9, some imgW⟩

/-- The output of analyze extW 10 [255, 216, 3] coldState. -/
def oW0 : DetectionOutput := ⟨[], 0, "N/A", 0, some imgW⟩

/-- Externals whose plot renderer always fails. -/
def extR : Externals where
  decode := fun bs => if bs = [255, 216, 3] then some imgW else none
  rawModel := fun _ => [⟨0, (9 : ℚ)⟩]
  plot := fun _ _ => none
  names := demoNames

/-- Externals whose model emits a class index with no label
(index 3 against a two-entry label table). -/
def extBad : Externals where
  decode := fun bs => if bs = [255, 216, 3] then some imgW else none
  rawModel := fun _ => [⟨3, (9 : ℚ)⟩]
  plot := fun img _ => some img
  names := demoNames

/-- resolveAll on a cons succeeds only through a successful lookup of the
head and a successful resolution of the tail. -/
theorem resolveAll_cons_ok {names : List String} {d : Detection} {tl : List Detection}
    {rs : List (String × ℚ)} (h : resolveAll names (d :: tl) = Except.ok rs) :
    ∃ nm rs0, names[d.cls]? = some nm ∧ resolveAll names tl = Except.ok rs0 ∧
      rs = (nm, d.conf) :: rs0 := by
  unfold resolveAll at h
  cases hn : names[d.cls]? with
  | none => rw [hn] at h; exact absurd h (by simp)
  | some nm =>
    rw [hn] at h
    cases hr : resolveAll names tl with
    | error e => rw [hr] at h; exact absurd h (by simp)
    | ok rs0 =>
      rw [hr] at h
      injection h with h
      exact ⟨nm, rs0, rfl, rfl, h.symm⟩

/-- A successful resolution has one entry per detection. -/
theorem resolveAll_ok_length {names : List String} {ds : List Detection}
    {rs : List (String × ℚ)} (h : resolveAll names ds = Except.ok rs) :
    rs.length = ds.length := by
  induction ds generalizing rs with
  | nil => unfold resolveAll at h; injection h with h; subst h; rfl
  | cons d tl ih =>
    obtain ⟨nm, rs0, hn, hr, rfl⟩ := resolveAll_cons_ok h
    simp [ih hr]

/-- A successful resolution keeps the confidences in emission order. -/
theorem resolveAll_ok_snd {names : List String} {ds : List Detection}
    {rs : List (String × ℚ)} (h : resolveAll names ds = Except.ok rs) :
    rs.map Prod.snd = ds.map Detection.conf := by
  induction ds generalizing rs with
  | nil => unfold resolveAll at h; injection h with h; subst h; rfl
  | cons d tl ih =>
    obtain ⟨nm, rs0, hn, hr, rfl⟩ := resolveAll_cons_ok h
    simp [ih hr]

/-- Every resolved entry comes from a detection whose class index the
label table resolves to exactly that name. -/
theorem resolveAll_ok_mem {names : List String} {ds : List Detection}
    {rs : List (String × ℚ)} (h : resolveAll names ds = Except.ok rs) :
    ∀ r ∈ rs, ∃ d ∈ ds, names[d.cls]? = some r.1 ∧ r.2 = d.conf := by
  induction ds generalizing rs with
  | nil => unfold resolveAll at h; injection h with h; subst h; simp
  | cons d tl ih =>
    obtain ⟨nm, rs0, hn, hr, rfl⟩ := resolveAll_cons_ok h
    intro r hmem
    rcases List.mem_cons.1 hmem with h1 | h1
    · subst h1; exact ⟨d, List.mem_cons_self d tl, hn, rfl⟩
    · obtain ⟨d2, hd2, hnd2, hc⟩ := ih hr r h1
      exact ⟨d2, List.mem_cons_of_mem d hd2, hnd2, hc⟩

/-- When resolution succeeds every class index is a valid index into the
label table. -/
theorem resolveAll_ok_valid {names : List String} {ds : List Detection}
    {rs : List (String × ℚ)} (h : resolveAll names ds = Except.ok rs) :
    ∀ d ∈ ds, d.cls < names.length := by
  induction ds generalizing rs with
  | nil => simp
  | cons d tl ih =>
    obtain ⟨nm, rs0, hn, hr, rfl⟩ := resolveAll_cons_ok h
    intro d2 hd2
    rcases List.mem_cons.1 hd2 with h1 | h1
    · subst h1
      obtain ⟨hlt, -⟩ := List.getElem?_eq_some.1 hn
      exact hlt
    · exact ih hr d2 h1

/-- The only error resolution ever produces is labelMappingError. -/
theorem resolveAll_error_eq {names : List String} {ds : List Detection}
    {e : RunError} (h : resolveAll names ds = Except.error e) :
    e = RunError.labelMappingError := by
  induction ds generalizing e with
  | nil => unfold resolveAll at h; exact absurd h (by simp)
  | cons d tl ih =>
    unfold resolveAll at h
    cases hn : names[d.cls]? with
    | none => rw [hn] at h; injection h with h; exact h.symm
    | some nm =>
      rw [hn] at h
      cases hr : resolveAll names tl with
      | error e2 =>
        rw [hr] at h
        injection h with h
        subst h
        exact ih hr
      | ok rs => rw [hr] at h; exact absurd h (by simp)

/-- A detection whose class index has no label makes resolution fail with
labelMappingError. -/
theorem resolveAll_error_of_none {names : List String} {ds : List Detection}
    {d : Detection} (hd : d ∈ ds) (hn : names[d.cls]? = none) :
    resolveAll names ds = Except.error RunError.labelMappingError := by
  cases he : resolveAll names ds with
  | error e => rw [resolveAll_error_eq he]
  | ok rs =>
    have hlt := resolveAll_ok_valid he d hd
    have hge := List.getElem?_eq_none_iff.1 hn
    omega

/-- Inversion of a successful run: every guard passed and the output is
the record the success branch builds. -/
theorem analyze_ok {ext : Externals} {t : ℚ} {bytes : List Nat} {s : AppState}
    {o : DetectionOutput} {s2 : AppState}
    (h : analyze ext t bytes s = (Except.ok o, s2)) :
    ∃ img rendered resolved,
      ext.decode bytes = some img ∧
      canWriteJpeg img = true ∧
      ext.plot img (filterDetections t (ext.rawModel img)) = some rendered ∧
      resolveAll (get_instance ext.names s.cache).1.names
        (filterDetections t (ext.rawModel img)) = Except.ok resolved ∧
      o = { detections := resolved
            total_count := (filterDetections t (ext.rawModel img)).length
            top_class := (resolved.head?.map Prod.fst).getD ("N/A")
            top_conf := ((filterDetections t (ext.rawModel img)).head?.map
              Detection.conf).getD 0
            annotated := some rendered } ∧
      s2 = ⟨(get_instance ext.names s.cache).2, false⟩ := by
  cases hdec : ext.decode bytes with
  | none =>
    simp only [analyze, hdec] at h
    exact absurd h (by simp)
  | some img =>
    simp only [analyze, hdec] at h
    cases hw : canWriteJpeg img with
    | false =>
      rw [hw] at h
      simp at h
    | true =>
      rw [hw] at h
      rw [if_pos rfl] at h
      cases hplot : ext.plot img (filterDetections t (ext.rawModel img)) with
      | none =>
        simp only [hplot] at h
        exact absurd h (by simp)
      | some rendered =>
        simp only [hplot] at h
        cases hres : resolveAll (get_instance ext.names s.cache).1.names
            (filterDetections t (ext.rawModel img)) with
        | error e =>
          simp only [hres] at h
          exact absurd h (by simp)
        | ok resolved =>
          simp only [hres] at h
          simp only [Prod.mk.injEq, Except.ok.injEq] at h
          exact ⟨img, rendered, resolved, rfl, hw, hplot, hres, h.1.symm, h.2.symm⟩

/-- Forward computation of a fully successful run. -/
theorem analyze_eq_ok {ext : Externals} {t : ℚ} {bytes : List Nat} {s : AppState}
    {img rendered : Img} {resolved : List (String × ℚ)}
    (hdec : ext.decode bytes = some img)
    (hw : canWriteJpeg img = true)
    (hplot : ext.plot img (filterDetections t (ext.rawModel img)) = some rendered)
    (hres : resolveAll (get_instance ext.names s.cache).1.names
      (filterDetections t (ext.rawModel img)) = Except.ok resolved) :
    analyze ext t bytes s =
      (Except.ok { detections := resolved
                   total_count := (filterDetections t (ext.rawModel img)).length
                   top_class := (resolved.head?.map Prod.fst).getD ("N/A")
                   top_conf := ((filterDetections t (ext.rawModel img)).head?.map
                     Detection.conf).getD 0
                   annotated := some rendered },
       ⟨(get_instance ext.names s.cache).2, false⟩) := by
  simp only [analyze, hdec, hw]
  rw [if_pos trivial]
  simp only [hplot, hres]

/-- Forward computation of a run that fails at class-name resolution. -/
theorem analyze_eq_label_error {ext : Externals} {t : ℚ} {bytes : List Nat}
    {s : AppState} {img rendered : Img}
    (hdec : ext.decode bytes = some img)
    (hw : canWriteJpeg img = true)
    (hplot : ext.plot img (filterDetections t (ext.rawModel img)) = some rendered)
    (hres : resolveAll (get_instance ext.names s.cache).1.names
      (filterDetections t (ext.rawModel img)) =
        Except.error RunError.labelMappingError) :
    analyze ext t bytes s =
      (Except.error RunError.labelMappingError,
       ⟨(get_instance ext.names s.cache).2, true⟩) := by
  simp only [analyze, hdec, hw]
  rw [if_pos trivial]
  simp only [hplot, hres]

/-- C1: for every analysis of a valid image that yields at least one
detection above the confidence threshold, the returned summary satisfies
total_count = length of the detections list, and the top detection shown
by the summary is the first detection in model emission order. -/
theorem C1_total_count_and_top (ext : Externals) (t : ℚ) (bytes : List Nat)
    (s : AppState) (o : DetectionOutput) (s2 : AppState)
    (h : analyze ext t bytes s = (Except.ok o, s2)) (hpos : 0 < o.total_count) :
    o.total_count = o.detections.length ∧
    o.top_detection = some (o.top_class, o.top_conf) := by
  obtain ⟨img, rendered, resolved, hdec, hw, hplot, hres, ho, hs⟩ := analyze_ok h
  subst ho
  constructor
  · exact (resolveAll_ok_length hres).symm
  · cases hfd : filterDetections t (ext.rawModel img) with
    | nil => simp [hfd] at hpos
    | cons d tl =>
      rw [hfd] at hres
      obtain ⟨nm, rs0, hn, hr, rfl⟩ := resolveAll_cons_ok hres
      simp [DetectionOutput.top_detection, hfd]

/-- C1 witness: a concrete run with two detections. -/
theorem C1_total_count_and_top_witness :
    analyze extW 1 [255, 216, 3] coldState = (Except.ok oW, warmState) ∧
    0 < oW.total_count ∧
    (oW.total_count = oW.detections.length ∧
     oW.top_detection = some (oW.top_class, oW.top_conf)) :=
  ⟨by decide, by decide,
   C1_total_count_and_top extW 1 [255, 216, 3] coldState oW warmState
     (by decide) (by decide)⟩

/-- C2: the pipeline keeps from the raw model output exactly the
detections whose confidence is not strictly below the threshold: the
returned detections carry the filtered confidences in emission order,
the filtered list is a sublist of the raw emission (no re-sorting, no
added deduplication), and any detection value d survives with its full
multiplicity exactly when its confidence is not strictly below the
threshold. -/
theorem C2_threshold_filter (ext : Externals) (t : ℚ) (bytes : List Nat)
    (s : AppState) (img : Img) (o : DetectionOutput) (s2 : AppState)
    (d : Detection)
    (hdec : ext.decode bytes = some img)
    (h : analyze ext t bytes s = (Except.ok o, s2)) :
    o.detections.map Prod.snd =
      (filterDetections t (ext.rawModel img)).map Detection.conf ∧
    (filterDetections t (ext.rawModel img)).Sublist (ext.rawModel img) ∧
    (filterDetections t (ext.rawModel img)).count d =
      (if d.conf < t then 0 else (ext.rawModel img).count d) := by
  obtain ⟨img2, rendered, resolved, hdec2, hw, hplot, hres, ho, hs⟩ := analyze_ok h
  rw [hdec] at hdec2
  injection hdec2 with he
  subst he
  subst ho
  refine ⟨resolveAll_ok_snd hres, List.filter_sublist _, ?_⟩
  by_cases hc : d.conf < t
  · rw [if_pos hc]
    refine List.count_eq_zero.2 ?_
    intro hmem
    have hkeep := (List.mem_filter.1 hmem).2
    exact absurd (of_decide_eq_true hkeep) (not_le.2 hc)
  · rw [if_neg hc]
    exact List.count_filter (decide_eq_true (not_lt.1 hc))

/-- C2 witness: a concrete run at threshold 5 where the detection with
confidence 3 is discarded and the one with confidence 9 is kept. -/
theorem C2_threshold_filter_witness :
    extW.decode [255, 216, 3] = some imgW ∧
    analyze extW 5 [255, 216, 3] coldState = (Except.ok oW5, warmState) ∧
    (oW5.detections.map Prod.snd =
       (filterDetections 5 (extW.rawModel imgW)).map Detection.conf ∧
     (filterDetections 5 (extW.rawModel imgW)).Sublist (extW.rawModel imgW) ∧
     (filterDetections 5 (extW.rawModel imgW)).count ⟨1, 3⟩ =
       (if (Detection.mk 1 3).conf < 5 then 0 else (extW.rawModel imgW).count ⟨1, 3⟩)) :=
  ⟨by decide, by decide,
   C2_threshold_filter extW 5 [255, 216, 3] coldState imgW oW5 warmState ⟨1, 3⟩
     (by decide) (by decide)⟩

/-- C3: raising the confidence threshold never increases total_count:
for the same image and the same starting state, two successful runs with
thresholds t1 <= t2 satisfy total_count at t2 <= total_count at t1. -/
theorem C3_threshold_monotone (ext : Externals) (t1 t2 : ℚ) (bytes : List Nat)
    (s : AppState) (o1 o2 : DetectionOutput) (s1 s2 : AppState)
    (ht : t1 ≤ t2)
    (h1 : analyze ext t1 bytes s = (Except.ok o1, s1))
    (h2 : analyze ext t2 bytes s = (Except.ok o2, s2)) :
    o2.total_count ≤ o1.total_count := by
  obtain ⟨img1, r1, rs1, hdec1, -, -, -, ho1, -⟩ := analyze_ok h1
  obtain ⟨img2, r2, rs2, hdec2, -, -, -, ho2, -⟩ := analyze_ok h2
  rw [hdec1] at hdec2
  injection hdec2 with he
  subst he
  subst ho1
  subst ho2
  have hsub : (filterDetections t2 (ext.rawModel img1)).Sublist
      (filterDetections t1 (ext.rawModel img1)) := by
    unfold filterDetections
    refine List.monotone_filter_right _ ?_
    intro a ha
    exact decide_eq_true (le_trans ht (of_decide_eq_true ha))
  exact hsub.length_le

/-- C3 witness: thresholds 1 <= 5 on the same two-detection run give
counts 2 and 1. -/
theorem C3_threshold_monotone_witness :
    (1 : ℚ) ≤ 5 ∧
    analyze extW 1 [255, 216, 3] coldState = (Except.ok oW, warmState) ∧
    analyze extW 5 [255, 216, 3] coldState = (Except.ok oW5, warmState) ∧
    oW5.total_count ≤ oW.total_count :=
  ⟨by decide, by decide, by decide,
   C3_threshold_monotone extW 1 5 [255, 216, 3] coldState oW oW5
     warmState warmState (by decide) (by decide) (by decide)⟩

/-- C4: an image whose analysis yields zero detections above threshold
produces a successful result, not an error: total_count = 0, the
detections list is empty, the top detection is absent (the summary shows
the sentinels "N/A" and 0 of lines 134-135), and the temp file is
removed. -/
theorem C4_zero_detections (ext : Externals) (t : ℚ) (bytes : List Nat)
    (s : AppState) (img rendered : Img)
    (hdec : ext.decode bytes = some img)
    (hw : canWriteJpeg img = true)
    (hempty : filterDetections t (ext.rawModel img) = [])
    (hplot : ext.plot img (filterDetections t (ext.rawModel img)) = some rendered) :
    analyze ext t bytes s =
      (Except.ok ⟨[], 0, "N/A", 0, some rendered⟩,
       ⟨(get_instance ext.names s.cache).2, false⟩) ∧
    DetectionOutput.top_detection ⟨[], 0, "N/A", 0, some rendered⟩ = none := by
  have hres : resolveAll (get_instance ext.names s.cache).1.names
      (filterDetections t (ext.rawModel img)) = Except.ok [] := by
    rw [hempty]
    rfl
  constructor
  · have h0 := analyze_eq_ok hdec hw hplot hres
    rw [hempty] at h0
    simpa using h0
  · rfl

/-- C4 witness: threshold 10 discards both demo detections. -/
theorem C4_zero_detections_witness :
    extW.decode [255, 216, 3] = some imgW ∧
    canWriteJpeg imgW = true ∧
    filterDetections 10 (extW.rawModel imgW) = [] ∧
    (analyze extW 10 [255, 216, 3] coldState =
       (Except.ok ⟨[], 0, "N/A", 0, some imgW⟩, warmState) ∧
     DetectionOutput.top_detection ⟨[], 0, "N/A", 0, some imgW⟩ = none) :=
  ⟨by decide, by decide, by decide,
   C4_zero_detections extW 10 [255, 216, 3] coldState imgW imgW
     (by decide) (by decide) (by decide) (by decide)⟩

/-- C5: a byte sequence decoding rejects (empty or truncated input) fails
with decodeError and leaves the whole shared state untouched: the warm
model cache is unchanged and no temp file is created. -/
theorem C5_decode_error_no_mutation (ext : Externals) (t : ℚ) (bytes : List Nat)
    (s : AppState) (h0 : ModelHandle)
    (hwarm : s.cache.cached = some h0)
    (hdec : ext.decode bytes = none) :
    analyze ext t bytes s = (Except.error RunError.decodeError, s) := by
  simp only [analyze, get_instance, hwarm, hdec]

/-- C5 witness: the empty byte sequence against a warm cache. -/
theorem C5_decode_error_no_mutation_witness :
    warmState.cache.cached = some handleW ∧
    extW.decode [] = none ∧
    analyze extW 0 [] warmState = (Except.error RunError.decodeError, warmState) :=
  ⟨by decide, by decide,
   C5_decode_error_no_mutation extW 0 [] warmState handleW (by decide) (by decide)⟩

/-- C6: in every returned result each detection carries a class index
that is a valid index into the loaded label table and a class name the
table resolves for that index; when the model emits a class index with
no corresponding label, the run fails with labelMappingError and no
result with an unresolved name is ever returned. -/
theorem C6_label_mapping (ext : Externals) (t : ℚ) (bytes : List Nat)
    (s : AppState) (img rendered : Img)
    (hdec : ext.decode bytes = some img) :
    (∀ o s2, analyze ext t bytes s = (Except.ok o, s2) →
      (∀ d ∈ filterDetections t (ext.rawModel img),
        d.cls < (get_instance ext.names s.cache).1.names.length) ∧
      (∀ r ∈ o.detections, ∃ d ∈ filterDetections t (ext.rawModel img),
        (get_instance ext.names s.cache).1.names[d.cls]? = some r.1 ∧
        r.2 = d.conf)) ∧
    (∀ d ∈ filterDetections t (ext.rawModel img),
      (get_instance ext.names s.cache).1.names[d.cls]? = none →
      canWriteJpeg img = true →
      ext.plot img (filterDetections t (ext.rawModel img)) = some rendered →
      analyze ext t bytes s =
        (Except.error RunError.labelMappingError,
         ⟨(get_instance ext.names s.cache).2, true⟩)) := by
  constructor
  · intro o s2 h
    obtain ⟨img2, r2, resolved, hdec2, hw, hplot, hres, ho, hs⟩ := analyze_ok h
    rw [hdec] at hdec2
    injection hdec2 with he
    subst he
    subst ho
    exact ⟨resolveAll_ok_valid hres, resolveAll_ok_mem hres⟩
  · intro d hd hn hw hplot
    exact analyze_eq_label_error hdec hw hplot (resolveAll_error_of_none hd hn)

/-- C6 witness: a model emitting class index 3 against a two-entry label
table makes the run fail with labelMappingError. -/
theorem C6_label_mapping_witness :
    extBad.decode [255, 216, 3] = some imgW ∧
    analyze extBad 0 [255, 216, 3] coldState =
      (Except.error RunError.labelMappingError,
       ⟨⟨some ⟨0, demoNames⟩, 1⟩, true⟩) :=
  ⟨by decide,
   (C6_label_mapping extBad 0 [255, 216, 3] coldState imgW imgW
      (by decide)).2 ⟨3, 9⟩ (by decide) (by decide) (by decide) (by decide)⟩

/-- Any number of calls against a warm cache returns the cached handle
and never loads again. -/
theorem runCalls_warm (names : List String) (n : Nat) (h : ModelHandle) (k : Nat) :
    runCalls names n ⟨some h, k⟩ = (List.replicate n h, ⟨some h, k⟩) := by
  induction n with
  | zero => rfl
  | succ n ih => simp [runCalls, get_instance, ih, List.replicate_succ]

/-- C7: from a cold cache, any positive number of get_instance calls
performs exactly one weight-load operation, every caller receives that
same handle, and a call against a warm cache returns the cached handle
unchanged without reloading. -/
theorem C7_single_load (names : List String) (n k : Nat) :
    (runCalls names (n + 1) ⟨none, k⟩).2.loadCount = k + 1 ∧
    (runCalls names (n + 1) ⟨none, k⟩).2.cached = some ⟨k, names⟩ ∧
    (runCalls names (n + 1) ⟨none, k⟩).1 =
      List.replicate (n + 1) (⟨k, names⟩ : ModelHandle) ∧
    ∀ (h : ModelHandle) (k2 : Nat),
      get_instance names ⟨some h, k2⟩ = (h, ⟨some h, k2⟩) := by
  have hstep : runCalls names (n + 1) ⟨none, k⟩ =
      ((⟨k, names⟩ : ModelHandle) ::
         (runCalls names n ⟨some ⟨k, names⟩, k + 1⟩).1,
       (runCalls names n ⟨some ⟨k, names⟩, k + 1⟩).2) := rfl
  rw [hstep, runCalls_warm]
  exact ⟨rfl, rfl, rfl, fun h k2 => rfl⟩

/-- C8 counterexample: a concrete run where decoding, the JPEG re-encode
and inference all succeeded but rendering fails; the script returns no
DetectionResult at all, while the claim demands a successful result with
the annotated image absent. -/
theorem C8_render_failure_counterexample :
    extR.decode [255, 216, 3] = some imgW ∧
    canWriteJpeg imgW = true ∧
    extR.plot imgW (filterDetections 0 (extR.rawModel imgW)) = none ∧
    outcomeOk (analyze extR 0 [255, 216, 3] coldState).1 = false ∧
    (analyze extR 0 [255, 216, 3] coldState).1 =
      Except.error RunError.renderError := by
  decide

/-- C8 (amended): a failure while rendering the annotated image aborts
the whole call with renderError: the numeric detection results are lost,
and the temp file is left on disk. -/
theorem C8_render_failure_aborts (ext : Externals) (t : ℚ) (bytes : List Nat)
    (s : AppState) (img : Img)
    (hdec : ext.decode bytes = some img)
    (hw : canWriteJpeg img = true)
    (hplot : ext.plot img (filterDetections t (ext.rawModel img)) = none) :
    analyze ext t bytes s =
      (Except.error RunError.renderError,
       ⟨(get_instance ext.names s.cache).2, true⟩) := by
  simp only [analyze, hdec, hw]
  rw [if_pos trivial]
  simp only [hplot]

/-- C8 witness: the amended theorem applied to the failing-plot run. -/
theorem C8_render_failure_aborts_witness :
    extR.decode [255, 216, 3] = some imgW ∧
    canWriteJpeg imgW = true ∧
    analyze extR 0 [255, 216, 3] coldState =
      (Except.error RunError.renderError,
       ⟨⟨some ⟨0, demoNames⟩, 1⟩, true⟩) :=
  ⟨by decide, by decide,
   C8_render_failure_aborts extR 0 [255, 216, 3] coldState imgW
     (by decide) (by decide) (by decide)⟩

/-- C9 counterexample: a concrete failing run in which the temp file was
created (decoding succeeded) and is still on disk when the call returns,
while the claim demands release on every exit path. -/
theorem C9_temp_leak_counterexample :
    coldState.tempLive = false ∧
    extR.decode [255, 216, 3] = some imgW ∧
    outcomeOk (analyze extR 0 [255, 216, 3] coldState).1 = false ∧
    (analyze extR 0 [255, 216, 3] coldState).2.tempLive = true := by
  decide

/-- C9 (amended): once decoding succeeds and the temp file is created,
the file is removed exactly when the run completes successfully; every
error exit after creation leaves it on disk. -/
theorem C9_temp_release_iff_success (ext : Externals) (t : ℚ) (bytes : List Nat)
    (s : AppState) (img : Img)
    (hdec : ext.decode bytes = some img) :
    ((analyze ext t bytes s).2.tempLive = false ↔
      outcomeOk (analyze ext t bytes s).1 = true) := by
  simp only [analyze, hdec]
  cases hw : canWriteJpeg img with
  | false => simp [hw, outcomeOk]
  | true =>
    rw [if_pos rfl]
    cases hplot : ext.plot img (filterDetections t (ext.rawModel img)) with
    | none => simp [hplot, outcomeOk]
    | some rendered =>
      simp only [hplot]
      cases hres : resolveAll (get_instance ext.names s.cache).1.names
          (filterDetections t (ext.rawModel img)) with
      | error e => simp [hres, outcomeOk]
      | ok resolved => simp [hres, outcomeOk]

/-- C9 witness: on a fully successful run the temp file is released. -/
theorem C9_temp_release_iff_success_witness :
    extW.decode [255, 216, 3] = some imgW ∧
    ((analyze extW 1 [255, 216, 3] coldState).2.tempLive = false ↔
      outcomeOk (analyze extW 1 [255, 216, 3] coldState).1 = true) :=
  ⟨by decide,
   C9_temp_release_iff_success extW 1 [255, 216, 3] coldState imgW (by decide)⟩

/-- C10: the decoded image is re-encoded as a JPEG temp file before the
model runs; a decoded image whose mode the JPEG encoder rejects (a
4-channel RGBA input) aborts the run with the uncaught save failure, so
the analysis produces neither a DetectionResult nor the validationError
of the spec, and no channel conversion is attempted; moreover no run of
the script ever produces validationError. -/
theorem C10_jpeg_reencode_failure (ext : Externals) (t : ℚ) (bytes : List Nat)
    (s : AppState) (img : Img)
    (hdec : ext.decode bytes = some img)
    (hch : img.channels = 4) :
    analyze ext t bytes s =
      (Except.error RunError.saveError,
       ⟨(get_instance ext.names s.cache).2, true⟩) ∧
    outcomeOk (analyze ext t bytes s).1 = false ∧
    ∀ (ext2 : Externals) (t2 : ℚ) (bytes2 : List Nat) (s2 : AppState),
      (analyze ext2 t2 bytes2 s2).1 ≠ Except.error RunError.validationError := by
  have hw : canWriteJpeg img = false := by simp [canWriteJpeg, hch]
  have hmain : analyze ext t bytes s =
      (Except.error RunError.saveError,
       ⟨(get_instance ext.names s.cache).2, true⟩) := by
    simp only [analyze, hdec, hw]
    simp
  refine ⟨hmain, by rw [hmain]; rfl, ?_⟩
  intro ext2 t2 bytes2 s2 hcontra
  cases hdec2 : ext2.decode bytes2 with
  | none =>
    simp only [analyze, hdec2] at hcontra
    simp at hcontra
  | some img2 =>
    simp only [analyze, hdec2] at hcontra
    cases hw2 : canWriteJpeg img2 with
    | false =>
      rw [hw2] at hcontra
      simp at hcontra
    | true =>
      rw [hw2] at hcontra
      rw [if_pos rfl] at hcontra
      cases hplot2 : ext2.plot img2 (filterDetections t2 (ext2.rawModel img2)) with
      | none =>
        simp only [hplot2] at hcontra
        simp at hcontra
      | some rendered2 =>
        simp only [hplot2] at hcontra
        cases hres2 : resolveAll (get_instance ext2.names s2.cache).1.names
            (filterDetections t2 (ext2.rawModel img2)) with
        | error e =>
          simp only [hres2] at hcontra
          have he := resolveAll_error_eq hres2
          subst he
          simp at hcontra
        | ok resolved2 =>
          simp only [hres2] at hcontra
          simp at hcontra

/-- C10 witness: a decoded 4-channel RGBA image aborts with the save
failure. -/
theorem C10_jpeg_reencode_failure_witness :
    extW.decode [137, 80, 4] = some imgA ∧
    imgA.channels = 4 ∧
    analyze extW 0 [137, 80, 4] coldState =
      (Except.error RunError.saveError, ⟨⟨some ⟨0, demoNames⟩, 1⟩, true⟩) :=
  ⟨by decide, by decide,
   (C10_jpeg_reencode_failure extW 0 [137, 80, 4] coldState imgA
      (by decide) (by decide)).1⟩
